import Mathlib

/-!
Verification of the HealthyLife recommendation engine.

Shallow embedding of the numeric core of the repository
(`src/utils.py`, `src/healthylife_app/utils.py`, `src/healthylife_app/foods.py`)
over exact rational arithmetic.  Python floats are modelled as `ℚ`,
`NaN`-able values as `Option ℚ` (`none` = NaN / missing), pandas data frames
as lists of rows plus column-presence flags, and `int` as `ℤ`.
-/

set_option maxRecDepth 4000
set_option maxHeartbeats 1000000

namespace HealthyLife

/-- Python `int(x)` applied to a float: truncation toward zero. -/
def pyInt (q : ℚ) : ℤ := if 0 ≤ q then ⌊q⌋ else ⌈q⌉

/-- Python `round(x)` (and numpy rounding): round half to even. -/
def pyRound (q : ℚ) : ℤ :=
  if q - ⌊q⌋ < 1/2 then ⌊q⌋
  else if 1/2 < q - ⌊q⌋ then ⌊q⌋ + 1
  else if ⌊q⌋ % 2 = 0 then ⌊q⌋ else ⌊q⌋ + 1

/-- Python `round(x, 1)`: round to one decimal digit, half to even. -/
def round1 (q : ℚ) : ℚ := (pyRound (10 * q) : ℤ) / 10

/-- Python truthiness fallback `x or d` for an optional float
(`None` and `0.0` are falsy, so both fall back to the default). -/
def pyOrQ (x : Option ℚ) (d : ℚ) : ℚ :=
  match x with
  | none => d
  | some v => if v = 0 then d else v

/-- Python truthiness fallback `x or d` for an optional int result
(`None` and `0` are falsy). -/
def pyOrN (x : Option ℕ) (d : ℕ) : ℕ :=
  match x with
  | none => d
  | some v => if v = 0 then d else v

/-- Python truthiness fallback `x or d` for an optional string
(`None` and `""` are falsy). -/
def pyOrS (x : Option String) (d : String) : String :=
  match x with
  | none => d
  | some v => if v = "" then d else v

/-- A calendar date as used by `datetime.date` (year, month, day). -/
structure PDate where
  year : ℤ
  month : ℤ
  day : ℤ
deriving DecidableEq

/-- A user profile dictionary (`src/utils.py` consumers).  Every field is
optional; the date of birth is modelled as an already-parsed calendar date
(`parse_age` returns `None` for absent or unparseable strings, which the
`none` case covers). -/
structure Profile where
  weight_kg : Option ℚ
  height_cm : Option ℚ
  dob : Option PDate
  sex : Option String
  activity_level : Option String
deriving DecidableEq

/-- `parse_age` from `src/utils.py` (lines 40-49), with `date.today()` made an
explicit parameter: whole years between dob and today, subtracting one before
the anniversary, floored at zero.  `none` models both an absent and an
unparseable dob string. -/
def parse_age (dob_iso : Option PDate) (today : PDate) : Option ℕ :=
  match dob_iso with
  | none => none
  | some dob =>
    let before : Bool :=
      today.month < dob.month ∨ (today.month = dob.month ∧ today.day < dob.day)
    some (max 0 (today.year - dob.year - (if before then 1 else 0))).toNat

/-- `ACTIVITY_FACTORS.get(key, default)` with the default `1.375` used at the
call site in `auto_goals` (`src/utils.py` line 68). -/
def activityFactor (s : String) : ℚ :=
  if s = "sedentary" then 1.2
  else if s = "light" then 1.375
  else if s = "moderate" then 1.55
  else if s = "active" then 1.725
  else 1.375

/-- The goals record produced by `auto_goals`: all six targets are integers. -/
structure Goals where
  kcal : ℤ
  protein_g : ℤ
  carbs_g : ℤ
  fat_g : ℤ
  fiber_g : ℤ
  water_ml : ℤ
deriving DecidableEq

/-- The BMR computed by `auto_goals` (`src/utils.py` lines 56-66):
Mifflin-St Jeor with truthiness defaults (weight 70, height 170, age 25,
sex `"other"`); `.lower()` is modelled on the character list so that it
computes structurally. -/
def bmrOf (today : PDate) (profile : Profile) : ℚ :=
  let w := pyOrQ profile.weight_kg 70
  let h := pyOrQ profile.height_cm 170
  let a : ℚ := (pyOrN (parse_age profile.dob today) 25 : ℕ)
  let sex := String.mk ((pyOrS profile.sex "other").data.map Char.toLower)
  if sex = "male" then 10 * w + 6.25 * h - 5 * a + 5
  else if sex = "female" then 10 * w + 6.25 * h - 5 * a - 161
  else 10 * w + 6.25 * h - 5 * a

/-- `auto_goals` from `src/utils.py` (lines 55-77): the BMR scaled by the
activity factor and truncated to `int`, with the macro split derived from the
calorie target. -/
def auto_goals (today : PDate) (profile : Profile) : Goals :=
  let factor := activityFactor (pyOrS profile.activity_level "light")
  let kcal : ℤ := pyInt (bmrOf today profile * factor)
  { kcal := kcal
    protein_g := pyInt ((0.25 * (kcal : ℚ)) / 4)
    carbs_g := pyInt ((0.45 * (kcal : ℚ)) / 4)
    fat_g := pyInt ((0.30 * (kcal : ℚ)) / 9)
    fiber_g := 25
    water_ml := 2000 }

/-- The `{protein_g, fat_g, carbs_g}` dictionary returned by
`recommended_macros`. -/
structure MacroRec where
  protein_g : ℤ
  fat_g : ℤ
  carbs_g : ℤ
deriving DecidableEq

/-- `recommended_macros` from `src/utils.py` (lines 113-128): protein by
scenario factor per kg body weight, fat as a scenario share of calories,
carbs from the calorie remainder, all clamped to a minimum of 0. -/
def recommended_macros (profile : Profile) (kcal : ℤ) (goal : String) : MacroRec :=
  let weight := pyOrQ profile.weight_kg 70
  let protein : ℤ :=
    if goal = "muscle_gain" then pyRound (2.0 * weight)
    else if goal = "fat_loss" then pyRound (1.8 * weight)
    else pyRound (1.6 * weight)
  let fr : ℚ :=
    if goal = "muscle_gain" then 0.25
    else if goal = "fat_loss" then 0.30
    else 0.28
  let fat : ℤ := pyInt ((fr * (kcal : ℚ)) / 9)
  let carbs : ℤ := pyInt (((kcal : ℚ) - ((protein : ℚ) * 4 + (fat : ℚ) * 9)) / 4)
  { protein_g := max protein 0, fat_g := max fat 0, carbs_g := max carbs 0 }

/-- `CM_PER_IN` from `src/utils.py`. -/
def CM_PER_IN : ℚ := 2.54

/-- `KG_PER_LB` from `src/utils.py`. -/
def KG_PER_LB : ℚ := 0.45359237

/-- `to_metric_from_imperial` from `src/utils.py` (lines 26-29). -/
def to_metric_from_imperial (ft : ℤ) (inch : ℚ) (lb : ℚ) : ℚ × ℚ :=
  (((ft : ℚ) * 12 + inch) * CM_PER_IN, lb * KG_PER_LB)

/-- `to_imperial_from_metric` from `src/utils.py` (lines 32-37):
`int(total_in // 12)` is the floor of `total_in / 12` (float floor division
followed by `int` of an already integral value). -/
def to_imperial_from_metric (cm : ℚ) (kg : ℚ) : (ℤ × ℚ) × ℚ :=
  let total_in := cm / CM_PER_IN
  let ft : ℤ := ⌊total_in / 12⌋
  let inch := round1 (total_in - (ft : ℚ) * 12)
  let lb := round1 (kg / KG_PER_LB)
  ((ft, inch), lb)

/-- One daily log entry, restricted to the numeric fields the core reads
(`weight_kg`, `kcal_in`, `protein_g`); `none` is a missing value (NaN). -/
structure LogEntry where
  weight_kg : Option ℚ
  kcal_in : Option ℚ
  protein_g : Option ℚ
deriving DecidableEq

/-- A pandas data frame of log entries: the rows in date order plus flags
recording whether the `kcal_in` / `weight_kg` / `protein_g` columns exist at
all (`"kcal_in" in df` in the code tests column existence, not values). -/
structure LogDF where
  has_kcal_in : Bool
  has_weight_kg : Bool
  has_protein_g : Bool
  rows : List LogEntry
deriving DecidableEq

/-- Well-formedness of the data-frame model: a column that does not exist has
no values in any row (as in pandas, where a missing column simply has no
cells). -/
def LogDF.WF (df : LogDF) : Prop :=
  (df.has_kcal_in = false → ∀ r ∈ df.rows, r.kcal_in = none) ∧
  (df.has_weight_kg = false → ∀ r ∈ df.rows, r.weight_kg = none) ∧
  (df.has_protein_g = false → ∀ r ∈ df.rows, r.protein_g = none)

instance (df : LogDF) : Decidable df.WF := by
  unfold LogDF.WF; infer_instance

/-- `df.dropna(subset=["kcal_in", "weight_kg"])` of
`estimate_tdee_from_logs`: the rows where both values are present. -/
def tdeeFiltered (df : LogDF) : List (ℚ × ℚ) :=
  df.rows.filterMap fun r =>
    match r.kcal_in, r.weight_kg with
    | some k, some w => some (k, w)
    | _, _ => none

/-- Trailing 7-sample window sum ending at position `i` (defined for
`6 ≤ i < length`): models `Series.rolling(7).sum()` at a position where the
window is full. -/
def win7sum (l : List ℚ) (i : ℕ) : ℚ := ((l.drop (i - 6)).take 7).sum

/-- Trailing 7-sample window mean ending at position `i`: models
`Series.rolling(7).mean()` at a position where the window is full. -/
def win7mean (l : List ℚ) (i : ℕ) : ℚ := win7sum l i / 7

/-- The row positions of `estimate_tdee_from_logs` that survive
`dropna(subset=["kcal_in_7d", "wt_7d", "wt_7d_shift"])`: the 7-sample rolling
values exist from position 6 on, and the `shift(-7)` lookahead exists while
`i + 7` is still a row. -/
def tdeeUsable (df : LogDF) : List ℕ :=
  (List.range (tdeeFiltered df).length).filter fun i =>
    decide (6 ≤ i) && decide (i + 7 < (tdeeFiltered df).length)

/-- The implied 7-day expenditure `kcal_in_7d - 7700 * (wt_7d_shift - wt_7d)`
at usable position `i` (`src/utils.py` lines 105-106). -/
def tdeeRhs (df : LogDF) (i : ℕ) : ℚ :=
  win7sum ((tdeeFiltered df).map Prod.fst) i -
    7700 * (win7mean ((tdeeFiltered df).map Prod.snd) (i + 7) -
      win7mean ((tdeeFiltered df).map Prod.snd) i)

/-- The unclamped TDEE estimate of `estimate_tdee_from_logs`
(`src/utils.py` lines 88-108): `none` on each early `return None` path,
otherwise the mean of the implied 7-day expenditures divided by 7. -/
def tdee_raw (df : LogDF) : Option ℚ :=
  if df.rows.isEmpty || !df.has_kcal_in || !df.has_weight_kg then none
  else if (tdeeFiltered df).length < 10 then none
  else if (tdeeUsable df).isEmpty then none
  else some ((((tdeeUsable df).map (tdeeRhs df)).sum / ((tdeeUsable df).length : ℚ)) / 7)

/-- `estimate_tdee_from_logs` from `src/utils.py` (lines 88-110): the raw
estimate clamped to `[0.7 * base, 1.3 * base]` and rounded to an integer. -/
def estimate_tdee_from_logs (df : LogDF) (base_tdee_guess : ℤ) : Option ℤ :=
  (tdee_raw df).map fun t =>
    pyRound (max ((base_tdee_guess : ℚ) * 0.7) (min ((base_tdee_guess : ℚ) * 1.3) t))

/-- A goals dictionary as read by `adherence_tune` and `suggest_meals`:
each target may be absent. -/
structure GoalsDict where
  kcal : Option ℚ
  protein_g : Option ℚ
  carbs_g : Option ℚ
  fat_g : Option ℚ
deriving DecidableEq

/-- Python truthiness of an optional number: `None` and `0` are falsy
(`not kcal_target` in the code). -/
def pyFalsyQ (x : Option ℚ) : Bool :=
  match x with
  | none => true
  | some v => v == 0

/-- `df.tail(n)`: the last `n` rows. -/
def tailN (n : ℕ) (l : List LogEntry) : List LogEntry := l.drop (l.length - n)

/-- The rows of the last `n` entries with both `kcal_in` and `protein_g`
present (`df.tail(n).dropna(subset=["kcal_in", "protein_g"])`). -/
def adhFiltered (n : ℕ) (df : LogDF) : List LogEntry :=
  (tailN n df.rows).filter fun r => r.kcal_in.isSome && r.protein_g.isSome

/-- The result record of `adherence_tune`. -/
structure AdhRes where
  kcal_rate : ℚ
  protein_rate : ℚ
  kcal_adjust : ℚ
deriving DecidableEq

/-- `adherence_tune`, parameterized by the tail window `n`
(`src/utils.py` lines 131-153 uses `n = 14`;
`src/healthylife_app/utils.py` lines 113-136 is identical with `n = 7`).
The code's `not goals` dict-emptiness test is subsumed here: with the goals
dict modelled by its two read keys, an empty dict has both targets absent and
the `not kcal_target or not p_target` test below returns `none` in exactly
those cases, so the returned value is unchanged. -/
def adherence_tune (n : ℕ) (df : LogDF) (goals : GoalsDict) : Option AdhRes :=
  if df.rows.isEmpty || !df.has_kcal_in || !df.has_protein_g then none
  else
    let t := adhFiltered n df
    if t.isEmpty then none
    else
      match goals.kcal, goals.protein_g with
      | some kt, some pt =>
        if kt = 0 ∨ pt = 0 then none
        else
          let kcal_rate : ℚ :=
            ((t.filter fun r =>
              decide (kt * 0.95 ≤ r.kcal_in.getD 0) &&
              decide (r.kcal_in.getD 0 ≤ kt * 1.05)).length : ℚ) / (t.length : ℚ)
          let p_rate : ℚ :=
            ((t.filter fun r => decide (pt * 0.9 ≤ r.protein_g.getD 0)).length : ℚ) /
              (t.length : ℚ)
          let adjust0 : ℚ := if kcal_rate < 0.4 then 0 - 100 else 0
          let adjust : ℚ := if 0.8 < kcal_rate then adjust0 + 100 else adjust0
          some { kcal_rate := kcal_rate, protein_rate := p_rate, kcal_adjust := adjust }
      | _, _ => none

/-- `str.strip()` on the character list of a string: drop surrounding
whitespace. -/
def stripChars (l : List Char) : List Char :=
  ((l.dropWhile Char.isWhitespace).reverse.dropWhile Char.isWhitespace).reverse

/-- `s.strip().lower()` as a character list (string functions are modelled on
`String.data` so that they compute structurally). -/
def stripLower (s : String) : List Char :=
  (stripChars s.data).map Char.toLower

/-- Greedy scan of `\d+(?:\.\d+)?` starting at the head of `l` (which is
known to start with a digit): the integer digits, the optional fraction
digits, and the rest. -/
def munchNum (l : List Char) : (List Char × List Char) :=
  let intPart := l.takeWhile Char.isDigit
  let rest := l.dropWhile Char.isDigit
  match rest with
  | '.' :: r2 =>
    match r2 with
    | d :: _ => if d.isDigit then (intPart, r2.takeWhile Char.isDigit) else (intPart, [])
    | [] => (intPart, [])
  | _ => (intPart, [])

/-- `re.search(r"-?\d+(?:\.\d+)?", s)`: the leftmost match, returned as
(negative sign present, integer digits, fraction digits). -/
def findNum : List Char → Option (Bool × List Char × List Char)
  | [] => none
  | c :: rest =>
    if c = '-' then
      match rest with
      | d :: _ =>
        if d.isDigit then some (true, munchNum rest)
        else findNum rest
      | [] => none
    else if c.isDigit then some (false, munchNum (c :: rest))
    else findNum rest

/-- The natural number denoted by a digit list. -/
def digitsToNat (l : List Char) : ℕ :=
  l.foldl (fun n c => 10 * n + (c.toNat - 48)) 0

/-- The rational denoted by a matched number (sign, integer digits, fraction
digits). -/
def numValue (sign : Bool) (intPart fracPart : List Char) : ℚ :=
  let v : ℚ := (digitsToNat intPart : ℚ) +
    (digitsToNat fracPart : ℚ) / ((10 : ℚ) ^ fracPart.length)
  if sign then -v else v

/-- `_to_number` from `src/healthylife_app/foods.py` (lines 27-44): a missing
cell stays missing, otherwise strip the text, drop thousands-separator
commas, and take the first `-?\d+(?:\.\d+)?` match; no match means missing
(NaN).  Cells are modelled by their text rendering (`str(x)`). -/
def _to_number (x : Option String) : Option ℚ :=
  match x with
  | none => none
  | some s0 =>
    let s := stripChars s0.data
    if s = [] then none
    else
      let s2 := s.filter (· ≠ ',')
      match findNum s2 with
      | none => none
      | some (sign, intPart, fracPart) => some (numValue sign intPart fracPart)

/-- The synonym lists of `STANDARD_COLS` in `src/healthylife_app/foods.py`
(lines 8-14). -/
def foodCands : List String := ["food", "name", "item", "食品", "食物"]

/-- Synonyms for the `kcal` column. -/
def kcalCands : List String :=
  ["kcal", "calories", "calorie", "熱量", "卡路里", "calories (kcal)", "kcal/serving"]

/-- Synonyms for the `protein_g` column. -/
def proteinCands : List String :=
  ["protein", "protein_g", "蛋白質", "蛋白(g)", "蛋白質(g)", "protein (g)", "prot(g)"]

/-- Synonyms for the `carbs_g` column. -/
def carbsCands : List String :=
  ["carb", "carbs", "carbohydrate", "carbohydrates", "碳水", "碳水化合物", "碳水(g)", "carbs (g)"]

/-- Synonyms for the `fat_g` column. -/
def fatCands : List String := ["fat", "fat_g", "脂肪", "脂肪(g)", "fat (g)"]

/-- `_find_col` from `src/healthylife_app/foods.py` (lines 17-23): the first
candidate whose lower-cased form appears among the stripped lower-cased
column names, returned as the original column name. -/
def _find_col (cols : List String) (cands : List String) : Option String :=
  let lc := cols.map stripLower
  match cands.find? (fun cand => lc.contains (cand.data.map Char.toLower)) with
  | some cand => cols.get? (lc.indexOf (cand.data.map Char.toLower))
  | none => none

/-- A raw uploaded table: the header row and the cell rows (a `none` cell is
a missing value). -/
structure RawTable where
  header : List String
  rows : List (List (Option String))

/-- The cell of `row` under the resolved column `col` (`none` column means
the standard column was unmatched, which the code materializes as an
all-NaN column). -/
def getCellByCol (t : RawTable) (col : Option String) (row : List (Option String)) :
    Option String :=
  match col with
  | none => none
  | some c =>
    match t.header.indexOf? c with
    | none => none
    | some i => row.getD i none

/-- A normalized food row as produced by `load_foods`. -/
structure FoodRow where
  food : String
  kcal : ℚ
  protein_g : ℚ
  carbs_g : ℚ
  fat_g : ℚ
  protein_per_100kcal : ℚ
  carbs_per_100kcal : ℚ
  fat_per_100kcal : ℚ
deriving DecidableEq

/-- The output of `load_foods`: the normalized rows plus the diagnostics
stored in `DataFrame.attrs`. -/
structure FoodsOut where
  rows : List FoodRow
  rows_in : ℕ
  rows_after_kcal : ℕ

/-- The `kcal` column resolved for a table. -/
def kcalColOf (t : RawTable) : Option String := _find_col t.header kcalCands

/-- The `food` column resolved for a table. -/
def foodColOf (t : RawTable) : Option String := _find_col t.header foodCands

/-- The `protein_g` column resolved for a table. -/
def proteinColOf (t : RawTable) : Option String := _find_col t.header proteinCands

/-- The `carbs_g` column resolved for a table. -/
def carbsColOf (t : RawTable) : Option String := _find_col t.header carbsCands

/-- The `fat_g` column resolved for a table. -/
def fatColOf (t : RawTable) : Option String := _find_col t.header fatCands

/-- The per-row parse stage of `load_foods`: the food cell and the four
numeric cells passed through `_to_number`. -/
def parsedRow (t : RawTable) (row : List (Option String)) :
    Option String × Option ℚ × Option ℚ × Option ℚ × Option ℚ :=
  (getCellByCol t (foodColOf t) row,
   _to_number (getCellByCol t (kcalColOf t) row),
   _to_number (getCellByCol t (proteinColOf t) row),
   _to_number (getCellByCol t (carbsColOf t) row),
   _to_number (getCellByCol t (fatColOf t) row))

/-- `load_foods` from `src/healthylife_app/foods.py` (lines 48-103): map the
header against the synonym lists, coerce the numeric cells, drop the rows
with missing kcal, default missing macros to 0, and derive the per-100kcal
densities with the `kcal.replace(0, NaN)` guard followed by
`replace(inf, NaN).fillna(0)` (in exact arithmetic the guard alone makes the
division total, so a zero-kcal row gets density 0).  A missing food cell
renders as the string `"nan"` (`astype(str)`), and the diagnostics
`rows_in` / `rows_after_kcal` are the row counts before and after the kcal
filter.  The `df.index.astype(str)` fallback for the food column is dead
code (the unmatched standard column is added to the frame first), so it is
not modelled. -/
def load_foods (t : RawTable) : FoodsOut :=
  let parsed := t.rows.map (parsedRow t)
  let kept := parsed.filterMap fun pr =>
    match pr.2.1 with
    | none => none
    | some k =>
      let p := pr.2.2.1.getD 0
      let c := pr.2.2.2.1.getD 0
      let f := pr.2.2.2.2.getD 0
      some { food := String.mk (stripChars (pr.1.getD "nan").data)
             kcal := k
             protein_g := p
             carbs_g := c
             fat_g := f
             protein_per_100kcal := if k = 0 then 0 else p / k * 100
             carbs_per_100kcal := if k = 0 then 0 else c / k * 100
             fat_per_100kcal := if k = 0 then 0 else f / k * 100 }
  { rows := kept, rows_in := parsed.length, rows_after_kcal := kept.length }

/-- `_goal_ratios` from `src/healthylife_app/foods.py` (lines 107-119):
targets with truthiness defaults, converted to kcal shares with the
denominator floored at 1. -/
def _goal_ratios (goals : GoalsDict) : ℚ × ℚ × ℚ :=
  let kcal := pyOrQ goals.kcal 2000
  let p := pyOrQ goals.protein_g 120
  let c := pyOrQ goals.carbs_g 200
  let f := pyOrQ goals.fat_g 60
  let p_k := p * 4.0
  let c_k := c * 4.0
  let f_k := f * 9.0
  let total := max (p_k + c_k + f_k) 1.0
  (p_k / total, c_k / total, f_k / total)

/-- A row of the intermediate frame  `out = df.assign(...)` built inside
`suggest_meals`: the food row plus the assigned columns. -/
structure ARow where
  food : String
  kcal : ℚ
  protein_g : ℚ
  carbs_g : ℚ
  fat_g : ℚ
  protein_per_100kcal : ℚ
  carbs_per_100kcal : ℚ
  fat_per_100kcal : ℚ
  meal_kcal_target : ℤ
  est_protein_g : ℚ
  est_carbs_g : ℚ
  est_fat_g : ℚ
  score : ℚ
deriving DecidableEq

/-- The per-row body of `suggest_meals` (`src/healthylife_app/foods.py`
lines 138-179): the scaled macro ratios with NaN guards, the ratio distance
to the goal ratios `gr`, the calorie mismatch penalty, the
strategy-dependent score, and the assigned estimate columns
(`fillna(0)` then `round(1)`). -/
def mkARow (gr : ℚ × ℚ × ℚ) (meal_kcal : ℤ) (strategy : String) (r : FoodRow) : ARow :=
  let scale : Option ℚ := if r.kcal = 0 then none else some ((meal_kcal : ℚ) / r.kcal)
  let ratios : ℚ × ℚ × ℚ :=
    match scale with
    | none => (0, 0, 0)
    | some s =>
      let p_kcal := r.protein_g * 4.0 * s
      let c_kcal := r.carbs_g * 4.0 * s
      let f_kcal := r.fat_g * 9.0 * s
      let total_k := p_kcal + c_kcal + f_kcal
      if total_k = 0 then (0, 0, 0)
      else (p_kcal / total_k, c_kcal / total_k, f_kcal / total_k)
  let ratio_mse := (ratios.1 - gr.1) ^ 2 + (ratios.2.1 - gr.2.1) ^ 2 +
    (ratios.2.2 - gr.2.2) ^ 2
  let kcal_pen := |r.kcal - (meal_kcal : ℚ)| / (max (meal_kcal : ℚ) 1)
  let score :=
    if strategy = "high_protein" then -r.protein_per_100kcal + 0.2 * kcal_pen
    else if strategy = "low_carb" then r.carbs_per_100kcal + 0.2 * kcal_pen
    else ratio_mse + 0.2 * kcal_pen
  { food := r.food
    kcal := r.kcal
    protein_g := r.protein_g
    carbs_g := r.carbs_g
    fat_g := r.fat_g
    protein_per_100kcal := r.protein_per_100kcal
    carbs_per_100kcal := r.carbs_per_100kcal
    fat_per_100kcal := r.fat_per_100kcal
    meal_kcal_target := meal_kcal
    est_protein_g := round1 ((scale.map fun s => r.protein_g * s).getD 0)
    est_carbs_g := round1 ((scale.map fun s => r.carbs_g * s).getD 0)
    est_fat_g := round1 ((scale.map fun s => r.fat_g * s).getD 0)
    score := score }

/-- The intermediate `out` frame of `suggest_meals` before sorting. -/
def suggest_augmented (foods : List FoodRow) (goals : GoalsDict) (meal_kcal : ℤ)
    (strategy : String) : List ARow :=
  foods.map (mkARow (_goal_ratios goals) meal_kcal strategy)

/-- A cell value of a returned suggestion row: food names are strings, all
other columns are numbers. -/
inductive Val where
  | s : String → Val
  | q : ℚ → Val
deriving DecidableEq

/-- The projection `out[keep]` of `suggest_meals`: the columns listed in
`keep_cols` (`src/healthylife_app/foods.py` lines 181-186), in order.  The
assigned `meal_kcal_target` / `est_*` columns are not in the list. -/
def keptAssoc (a : ARow) : List (String × Val) :=
  [("food", Val.s a.food),
   ("kcal", Val.q a.kcal),
   ("protein_g", Val.q a.protein_g),
   ("carbs_g", Val.q a.carbs_g),
   ("fat_g", Val.q a.fat_g),
   ("protein_per_100kcal", Val.q a.protein_per_100kcal),
   ("carbs_per_100kcal", Val.q a.carbs_per_100kcal),
   ("fat_per_100kcal", Val.q a.fat_per_100kcal),
   ("score", Val.q a.score)]

/-- The score of a returned suggestion row. -/
def rowScore (row : List (String × Val)) : ℚ :=
  match List.lookup "score" row with
  | some (Val.q v) => v
  | _ => 0

/-- `suggest_meals` from `src/healthylife_app/foods.py` (lines 122-188):
empty catalog short-circuits to an empty frame, otherwise score every row,
sort ascending by score (`sort_values`), keep the `keep_cols` columns and
return the first `topn` rows. -/
def suggest_meals (foods : List FoodRow) (goals : GoalsDict) (meal_kcal : ℤ)
    (strategy : String) (topn : ℕ) : List (List (String × Val)) :=
  if foods.isEmpty then []
  else
    ((List.insertionSort (fun a b : ARow => a.score ≤ b.score)
        (suggest_augmented foods goals meal_kcal strategy)).map keptAssoc).take topn

/-! ## Helper lemmas -/

lemma ceil_as_floor (q : ℚ) : ⌈q⌉ = -⌊-q⌋ := by
  rw [Int.floor_neg, neg_neg]

lemma pyRound_sub_le (q : ℚ) : |(pyRound q : ℚ) - q| ≤ 1/2 := by
  have hf : (⌊q⌋ : ℚ) ≤ q := Int.floor_le q
  have hc : q < ⌊q⌋ + 1 := Int.lt_floor_add_one q
  unfold pyRound
  split
  · rw [abs_le]; constructor <;> push_cast <;> linarith
  · split
    · rw [abs_le]; constructor <;> push_cast <;> linarith
    · split <;> (rw [abs_le]; constructor <;> push_cast <;> linarith)

lemma round1_sub_le (q : ℚ) : |round1 q - q| ≤ 1/20 := by
  have h := pyRound_sub_le (10 * q)
  unfold round1
  have heq : (pyRound (10 * q) : ℚ) / 10 - q = ((pyRound (10 * q) : ℚ) - 10 * q) / 10 := by
    ring
  rw [heq]
  rw [abs_le] at h ⊢
  obtain ⟨h1, h2⟩ := h
  constructor <;> linarith

lemma pyInt_nonneg {q : ℚ} (h : 0 ≤ q) : 0 ≤ pyInt q := by
  unfold pyInt
  rw [if_pos h]
  exact Int.floor_nonneg.mpr h

lemma pyInt_pos {q : ℚ} (h : 1 ≤ q) : 0 < pyInt q := by
  unfold pyInt
  rw [if_pos (by linarith)]
  have : (1 : ℤ) ≤ ⌊q⌋ := by
    rw [Int.le_floor]; exact_mod_cast h
  omega

/-! ## C9: the fat-loss macro scenario -/

/-- C9: for the profile `{weight_kg: 70}`, `kcal = 2000` and goal
`"fat_loss"`, `recommended_macros` returns exactly `protein_g = 126`,
`fat_g = 66` and `carbs_g = 225`. -/
theorem C9_recommended_macros_scenario :
    recommended_macros ⟨some 70, none, none, none, none⟩ 2000 "fat_loss" =
      ⟨126, 66, 225⟩ := by
  simp [recommended_macros, pyOrQ, pyRound, pyInt]
  norm_num

/-! ## C10: zero weight / height treated like an absent value -/

/-- C10: in `auto_goals` and `recommended_macros` a profile with
`weight_kg = 0` (resp. `height_cm = 0`) is treated exactly like one where the
field is absent, because Python's `or` fallback treats `0` as falsy; in
particular the protein recommendation for a zero-weight profile equals the
70 kg default (126 g), never 0 g. -/
theorem C10_zero_weight_like_absent (p : Profile) (kcal : ℤ) (goal : String)
    (today : PDate) :
    recommended_macros { p with weight_kg := some 0 } kcal goal =
      recommended_macros { p with weight_kg := none } kcal goal ∧
    auto_goals today { p with weight_kg := some 0, height_cm := some 0 } =
      auto_goals today { p with weight_kg := none, height_cm := none } ∧
    (recommended_macros ⟨some 0, none, none, none, none⟩ 2000 "fat_loss").protein_g
      = 126 := by
  refine ⟨?_, ?_, ?_⟩
  · simp [recommended_macros, pyOrQ]
  · simp [auto_goals, bmrOf, pyOrQ]
  · simp [recommended_macros, pyOrQ, pyRound]
    norm_num

/-! ## C7: imperial/metric round trip -/

lemma roundtrip_eq (ft : ℤ) (inch lb : ℚ) (hi0 : 0 ≤ inch) (hi : inch ≤ 119/10) :
    to_imperial_from_metric (to_metric_from_imperial ft inch lb).1
      (to_metric_from_imperial ft inch lb).2 = ((ft, round1 inch), round1 lb) := by
  unfold to_metric_from_imperial to_imperial_from_metric CM_PER_IN KG_PER_LB
  have h254 : (2.54 : ℚ) ≠ 0 := by norm_num
  have hK : (0.45359237 : ℚ) ≠ 0 := by norm_num
  have htot : ((ft : ℚ) * 12 + inch) * 2.54 / 2.54 = (ft : ℚ) * 12 + inch :=
    mul_div_cancel_right₀ _ h254
  have hlb : lb * 0.45359237 / 0.45359237 = lb := mul_div_cancel_right₀ _ hK
  have hsplit : ((ft : ℚ) * 12 + inch) / 12 = inch / 12 + (ft : ℚ) := by ring
  have hzero : ⌊inch / 12⌋ = 0 := by
    rw [Int.floor_eq_zero_iff]
    constructor
    · positivity
    · rw [div_lt_one (by norm_num : (0:ℚ) < 12)]; linarith
  have hfloor : ⌊((ft : ℚ) * 12 + inch) / 12⌋ = ft := by
    rw [hsplit, Int.floor_add_int, hzero, zero_add]
  simp only [htot, hlb, hfloor]
  have harg : (ft : ℚ) * 12 + inch - (ft : ℚ) * 12 = inch := by ring
  rw [harg]

/-- C7: for `ft ∈ [0,8]`, `inch ∈ [0,11.9]`, `lb ∈ [0,1100]`, converting to
metric and back reproduces each of the three imperial components within
0.1. -/
theorem C7_roundtrip (ft : ℤ) (inch lb : ℚ)
    (hft0 : 0 ≤ ft) (hft : ft ≤ 8) (hi0 : 0 ≤ inch) (hi : inch ≤ 119/10)
    (hl0 : 0 ≤ lb) (hl : lb ≤ 1100) :
    |(((to_imperial_from_metric (to_metric_from_imperial ft inch lb).1
        (to_metric_from_imperial ft inch lb).2).1.1 : ℤ) : ℚ) - (ft : ℚ)| ≤ 1/10 ∧
    |(to_imperial_from_metric (to_metric_from_imperial ft inch lb).1
        (to_metric_from_imperial ft inch lb).2).1.2 - inch| ≤ 1/10 ∧
    |(to_imperial_from_metric (to_metric_from_imperial ft inch lb).1
        (to_metric_from_imperial ft inch lb).2).2 - lb| ≤ 1/10 := by
  rw [roundtrip_eq ft inch lb hi0 hi]
  refine ⟨?_, ?_, ?_⟩
  · simp
  · exact le_trans (round1_sub_le inch) (by norm_num)
  · exact le_trans (round1_sub_le lb) (by norm_num)

/-- C7 witness: the round-trip bound instantiated at
`ft = 5, inch = 7.3, lb = 150.2`. -/
theorem C7_roundtrip_witness :
    ((0 ≤ (5:ℤ)) ∧ (5:ℤ) ≤ 8 ∧ (0 ≤ (73/10:ℚ)) ∧ (73/10:ℚ) ≤ 119/10 ∧
      (0 ≤ (751/5:ℚ)) ∧ (751/5:ℚ) ≤ 1100) ∧
    (|(((to_imperial_from_metric (to_metric_from_imperial 5 (73/10) (751/5)).1
        (to_metric_from_imperial 5 (73/10) (751/5)).2).1.1 : ℤ) : ℚ) - ((5:ℤ) : ℚ)| ≤ 1/10 ∧
    |(to_imperial_from_metric (to_metric_from_imperial 5 (73/10) (751/5)).1
        (to_metric_from_imperial 5 (73/10) (751/5)).2).1.2 - (73/10)| ≤ 1/10 ∧
    |(to_imperial_from_metric (to_metric_from_imperial 5 (73/10) (751/5)).1
        (to_metric_from_imperial 5 (73/10) (751/5)).2).2 - (751/5)| ≤ 1/10) :=
  ⟨⟨by norm_num, by norm_num, by norm_num, by norm_num, by norm_num, by norm_num⟩,
    C7_roundtrip 5 (73/10) (751/5) (by norm_num) (by norm_num) (by norm_num)
      (by norm_num) (by norm_num) (by norm_num)⟩

/-! ## C3: positivity of the auto-generated goals -/

lemma activityFactor_lower (s : String) : (1.2 : ℚ) ≤ activityFactor s := by
  unfold activityFactor
  split_ifs <;> norm_num

lemma bmrOf_lower (today : PDate) (p : Profile)
    (hw : 30 ≤ pyOrQ p.weight_kg 70) (hh : 100 ≤ pyOrQ p.height_cm 170)
    (ha : pyOrN (parse_age p.dob today) 25 ≤ 80) :
    (364 : ℚ) ≤ bmrOf today p := by
  have ha' : ((pyOrN (parse_age p.dob today) 25 : ℕ) : ℚ) ≤ 80 := by
    exact_mod_cast ha
  simp only [bmrOf]
  split_ifs <;> linarith

/-- C3 counterexample: the profile `{weight_kg: 0.1, height_cm: 0.1}` is
valid (non-negative weight and height, everything else unset), yet
`auto_goals` returns `kcal = -169`, not a positive calorie target. -/
theorem C3_counterexample :
    (auto_goals ⟨2026, 10, 12⟩ ⟨some (1/10), some (1/10), none, none, none⟩).kcal
        = -169 ∧
    ¬(0 < (auto_goals ⟨2026, 10, 12⟩
        ⟨some (1/10), some (1/10), none, none, none⟩).kcal) := by
  have hsex : String.mk (("other" : String).data.map Char.toLower) = "other" := by
    decide
  have h : (auto_goals ⟨2026, 10, 12⟩
      ⟨some (1/10), some (1/10), none, none, none⟩).kcal = -169 := by
    simp [auto_goals, bmrOf, pyOrQ, pyOrN, pyOrS, parse_age, activityFactor,
      pyInt, hsex]
    norm_num [ceil_as_floor]
  exact ⟨h, by rw [h]; decide⟩

/-- C3 amended: for every profile whose resolved weight is at least 30 kg,
resolved height at least 100 cm, and resolved age at most 80 years (defaults
70 kg / 170 cm / 25 y for absent or zero fields), `auto_goals` yields
`kcal > 0`, non-negative protein/carb/fat grams, and the fixed
`fiber_g = 25`, `water_ml = 2000`.  (The unrestricted claim is refuted by
the counterexample above: extreme but valid profiles drive the Mifflin-St Jeor
BMR negative.) -/
theorem C3_amended (today : PDate) (p : Profile)
    (hw : 30 ≤ pyOrQ p.weight_kg 70) (hh : 100 ≤ pyOrQ p.height_cm 170)
    (ha : pyOrN (parse_age p.dob today) 25 ≤ 80) :
    0 < (auto_goals today p).kcal ∧ 0 ≤ (auto_goals today p).protein_g ∧
    0 ≤ (auto_goals today p).carbs_g ∧ 0 ≤ (auto_goals today p).fat_g ∧
    (auto_goals today p).fiber_g = 25 ∧ (auto_goals today p).water_ml = 2000 := by
  have hbmr := bmrOf_lower today p hw hh ha
  have hfac := activityFactor_lower (pyOrS p.activity_level "light")
  have hmul : (1 : ℚ) ≤ bmrOf today p * activityFactor (pyOrS p.activity_level "light") := by
    nlinarith [mul_nonneg (sub_nonneg.mpr hbmr) (sub_nonneg.mpr hfac)]
  have hkcal : 0 < pyInt (bmrOf today p * activityFactor (pyOrS p.activity_level "light")) :=
    pyInt_pos hmul
  have hkq : (0 : ℚ) ≤
      (pyInt (bmrOf today p * activityFactor (pyOrS p.activity_level "light")) : ℚ) := by
    exact_mod_cast le_of_lt hkcal
  unfold auto_goals
  refine ⟨hkcal, ?_, ?_, ?_, rfl, rfl⟩
  · exact pyInt_nonneg (by linarith)
  · exact pyInt_nonneg (by linarith)
  · exact pyInt_nonneg (by linarith)

/-- C3 witness: the amended bound applied to the all-default profile. -/
theorem C3_amended_witness :
    ((30 : ℚ) ≤ pyOrQ (Profile.mk none none none none none).weight_kg 70 ∧
     (100 : ℚ) ≤ pyOrQ (Profile.mk none none none none none).height_cm 170 ∧
     pyOrN (parse_age (Profile.mk none none none none none).dob ⟨2026, 10, 12⟩) 25 ≤ 80) ∧
    (0 < (auto_goals ⟨2026, 10, 12⟩ (Profile.mk none none none none none)).kcal ∧
     0 ≤ (auto_goals ⟨2026, 10, 12⟩ (Profile.mk none none none none none)).protein_g ∧
     0 ≤ (auto_goals ⟨2026, 10, 12⟩ (Profile.mk none none none none none)).carbs_g ∧
     0 ≤ (auto_goals ⟨2026, 10, 12⟩ (Profile.mk none none none none none)).fat_g ∧
     (auto_goals ⟨2026, 10, 12⟩ (Profile.mk none none none none none)).fiber_g = 25 ∧
     (auto_goals ⟨2026, 10, 12⟩ (Profile.mk none none none none none)).water_ml = 2000) :=
  ⟨⟨by norm_num [pyOrQ], by norm_num [pyOrQ], by norm_num [pyOrN, parse_age]⟩,
    C3_amended ⟨2026, 10, 12⟩ (Profile.mk none none none none none)
      (by norm_num [pyOrQ]) (by norm_num [pyOrQ]) (by norm_num [pyOrN, parse_age])⟩

/-! ## C4: the no-result condition of adherence_tune -/

lemma adhFiltered_nil_of_empty (n : ℕ) (df : LogDF) (h : df.rows.isEmpty = true) :
    adhFiltered n df = [] := by
  rw [List.isEmpty_iff] at h
  simp [adhFiltered, tailN, h]

lemma adhFiltered_nil_of_none (n : ℕ) (df : LogDF)
    (h : (∀ r ∈ df.rows, r.kcal_in = none) ∨ (∀ r ∈ df.rows, r.protein_g = none)) :
    adhFiltered n df = [] := by
  unfold adhFiltered
  rw [List.filter_eq_nil]
  intro r hr
  have hmem : r ∈ df.rows := List.drop_subset _ _ hr
  rcases h with h | h
  · simp [h r hmem]
  · simp [h r hmem]

/-- C4 counterexample: with one log row having both `kcal_in` and
`protein_g` present and a goals record whose `kcal` key is present but `0`,
`adherence_tune` returns no result even though the filtered count is nonzero
and neither target is absent: a present-but-zero target is treated as
missing (Python truthiness), which the claim as stated does not allow. -/
theorem C4_counterexample :
    adherence_tune 14 ⟨true, true, true, [⟨none, some 2000, some 100⟩]⟩
        ⟨some 0, some 100, none, none⟩ = none ∧
    ¬((adhFiltered 14 ⟨true, true, true, [⟨none, some 2000, some 100⟩]⟩).length = 0 ∨
      (⟨some 0, some 100, none, none⟩ : GoalsDict).kcal = none ∨
      (⟨some 0, some 100, none, none⟩ : GoalsDict).protein_g = none) := by
  constructor
  · simp [adherence_tune, adhFiltered, tailN]
  · simp [adhFiltered, tailN]

/-- C4 amended: for a well-formed log frame, `adherence_tune` returns no
result exactly when the count of rows among the most recent `n` with both
`kcal_in` and `protein_g` present is 0, or the goals `kcal` target is absent
*or zero*, or the goals `protein_g` target is absent *or zero* (Python
truthiness makes a 0 target behave like a missing one; everything else in
the claim is as stated). -/
theorem C4_amended (n : ℕ) (df : LogDF) (g : GoalsDict) (hwf : df.WF) :
    adherence_tune n df g = none ↔
      ((adhFiltered n df).length = 0 ∨ pyFalsyQ g.kcal = true ∨
        pyFalsyQ g.protein_g = true) := by
  obtain ⟨hk, -, hp⟩ := hwf
  obtain ⟨gk, gp, gc, gf⟩ := g
  cases gk with
  | none => simp [adherence_tune, pyFalsyQ]
  | some kt =>
    cases gp with
    | none => simp [adherence_tune, pyFalsyQ]
    | some pt =>
      by_cases hkt : kt = 0
      · simp [adherence_tune, pyFalsyQ, hkt]
      · by_cases hpt : pt = 0
        · simp [adherence_tune, pyFalsyQ, hpt]
        · have hfk : pyFalsyQ (some kt) = false := by simp [pyFalsyQ, hkt]
          have hfp : pyFalsyQ (some pt) = false := by simp [pyFalsyQ, hpt]
          simp only [adherence_tune, hfk, hfp, Bool.false_eq_true, or_false]
          split_ifs with h1 h2 h3
          · simp only [true_iff]
            rcases Bool.or_eq_true_iff.mp h1 with h | h
            · rcases Bool.or_eq_true_iff.mp h with h | h
              · rw [adhFiltered_nil_of_empty n df h]; rfl
              · rw [adhFiltered_nil_of_none n df
                  (Or.inl (hk (by revert h; cases df.has_kcal_in <;> simp)))]
                rfl
            · rw [adhFiltered_nil_of_none n df
                (Or.inr (hp (by revert h; cases df.has_protein_g <;> simp)))]
              rfl
          · simp only [true_iff]
            rw [List.isEmpty_iff] at h2
            simp [h2]
          · exact absurd h3 (not_or.mpr ⟨hkt, hpt⟩)
          · have : (adhFiltered n df).length ≠ 0 := by
              rw [List.isEmpty_iff] at h2
              simpa [List.length_eq_zero] using h2
            simp [this]

/-- C4 witness: the amended equivalence applied to a concrete frame with one
complete recent row and complete goals. -/
theorem C4_amended_witness :
    (LogDF.mk true true true [⟨none, some 2000, some 100⟩]).WF ∧
    (adherence_tune 14 ⟨true, true, true, [⟨none, some 2000, some 100⟩]⟩
        ⟨some 2000, some 100, none, none⟩ = none ↔
      ((adhFiltered 14 ⟨true, true, true, [⟨none, some 2000, some 100⟩]⟩).length = 0 ∨
        pyFalsyQ (⟨some 2000, some 100, none, none⟩ : GoalsDict).kcal = true ∨
        pyFalsyQ (⟨some 2000, some 100, none, none⟩ : GoalsDict).protein_g = true)) :=
  ⟨by decide,
    C4_amended 14 ⟨true, true, true, [⟨none, some 2000, some 100⟩]⟩
      ⟨some 2000, some 100, none, none⟩ (by decide)⟩

/-! ## C5 and C6: the TDEE estimator -/

lemma tdeeFiltered_nil_of_empty (df : LogDF) (h : df.rows.isEmpty = true) :
    tdeeFiltered df = [] := by
  rw [List.isEmpty_iff] at h
  simp [tdeeFiltered, h]

lemma tdeeFiltered_nil_of_none (df : LogDF)
    (h : (∀ r ∈ df.rows, r.kcal_in = none) ∨ (∀ r ∈ df.rows, r.weight_kg = none)) :
    tdeeFiltered df = [] := by
  unfold tdeeFiltered
  rw [List.filterMap_eq_nil]
  intro r hr
  rcases h with h | h
  · simp [h r hr]
  · rcases hk : r.kcal_in with - | k <;> simp [h r hr, hk]

lemma tdee_raw_eval (df : LogDF)
    (hc : (df.rows.isEmpty || !df.has_kcal_in || !df.has_weight_kg) = false)
    (h10 : ¬((tdeeFiltered df).length < 10))
    (hne : (tdeeUsable df).isEmpty = false) :
    tdee_raw df =
      some ((((tdeeUsable df).map (tdeeRhs df)).sum / ((tdeeUsable df).length : ℚ)) / 7) := by
  rw [tdee_raw,
    if_neg (show ¬((df.rows.isEmpty || !df.has_kcal_in || !df.has_weight_kg) = true) by
      simp [hc]),
    if_neg h10,
    if_neg (show ¬((tdeeUsable df).isEmpty = true) by simp [hne])]

/-- C5: for a well-formed log frame, the TDEE estimator returns the
insufficient-data outcome exactly when fewer than 10 rows have both
`kcal_in` and `weight_kg` present, or the rolling-window computation
(7-sample rolling sum/mean plus the 7-rows-ahead lookahead) leaves no usable
row after dropping. -/
theorem C5_tdee_none_iff (df : LogDF) (b : ℤ) (hwf : df.WF) :
    estimate_tdee_from_logs df b = none ↔
      ((tdeeFiltered df).length < 10 ∨ tdeeUsable df = []) := by
  obtain ⟨hk, hw', -⟩ := hwf
  rw [estimate_tdee_from_logs, Option.map_eq_none']
  rw [tdee_raw]
  split_ifs with h1 h2 h3
  · simp only [eq_self_iff_true, true_iff]
    left
    rcases Bool.or_eq_true_iff.mp h1 with h | h
    · rcases Bool.or_eq_true_iff.mp h with h | h
      · rw [tdeeFiltered_nil_of_empty df h]; decide
      · rw [tdeeFiltered_nil_of_none df
          (Or.inl (hk (by revert h; cases df.has_kcal_in <;> simp)))]
        decide
    · rw [tdeeFiltered_nil_of_none df
        (Or.inr (hw' (by revert h; cases df.has_weight_kg <;> simp)))]
      decide
  · simp only [eq_self_iff_true, true_iff]
    exact Or.inl h2
  · simp only [eq_self_iff_true, true_iff]
    exact Or.inr (List.isEmpty_iff.mp h3)
  · refine iff_of_false (by simp) ?_
    rintro (h | h)
    · exact h2 h
    · rw [h] at h3; exact h3 rfl

/-- C5 witness: a frame with only 5 complete rows, where the estimator
returns `none` and the characterization applies. -/
theorem C5_tdee_none_iff_witness :
    (LogDF.mk true true true (List.replicate 5 ⟨some 70, some 2000, none⟩)).WF ∧
    (estimate_tdee_from_logs
        ⟨true, true, true, List.replicate 5 ⟨some 70, some 2000, none⟩⟩ 1800 = none ↔
      ((tdeeFiltered ⟨true, true, true, List.replicate 5 ⟨some 70, some 2000, none⟩⟩).length < 10 ∨
        tdeeUsable ⟨true, true, true, List.replicate 5 ⟨some 70, some 2000, none⟩⟩ = [])) :=
  ⟨by decide,
    C5_tdee_none_iff ⟨true, true, true, List.replicate 5 ⟨some 70, some 2000, none⟩⟩ 1800
      (by decide)⟩

/-- C6 counterexample: with 14 complete rows of zero intake and constant
weight and baseline guess 3, the estimator returns `some 2`, but
`2 < 0.7 * 3`: the returned rounded integer lies outside the trust region
`[0.7 * baseline, 1.3 * baseline]`, refuting the claim's "no returned
estimate lies outside this trust region". -/
theorem C6_counterexample :
    estimate_tdee_from_logs
        ⟨true, true, true, List.replicate 14 ⟨some 70, some 0, none⟩⟩ 3 = some 2 ∧
    ¬(((3 : ℤ) : ℚ) * 0.7 ≤ ((2 : ℤ) : ℚ)) := by
  constructor
  · have hflt : tdeeFiltered ⟨true, true, true, List.replicate 14 ⟨some 70, some 0, none⟩⟩ =
        List.replicate 14 ((0 : ℚ), (70 : ℚ)) := by decide
    have hus : tdeeUsable ⟨true, true, true, List.replicate 14 ⟨some 70, some 0, none⟩⟩ =
        [6] := by decide
    have hrhs : tdeeRhs ⟨true, true, true, List.replicate 14 ⟨some 70, some 0, none⟩⟩ 6 = 0 := by
      unfold tdeeRhs win7mean win7sum
      rw [hflt]
      simp [List.map_replicate, List.drop_replicate, List.take_replicate,
        List.sum_replicate]
    have hraw := tdee_raw_eval
      ⟨true, true, true, List.replicate 14 ⟨some 70, some 0, none⟩⟩
      (by decide) (by rw [hflt]; decide) (by rw [hus]; rfl)
    rw [estimate_tdee_from_logs, hraw, hus]
    simp only [List.map_cons, List.map_nil, hrhs, List.sum_cons, List.sum_nil,
      List.length_cons, List.length_nil, Option.map_some']
    have hmin : min ((3 : ℤ) * (1.3 : ℚ)) ((0 + 0) / (0 + 1 : ℚ) / 7) = 0 := by
      rw [show ((0 + 0) / (0 + 1 : ℚ) / 7) = 0 by norm_num]
      exact min_eq_right (by norm_num)
    have hmax : max ((3 : ℤ) * (0.7 : ℚ)) (0 : ℚ) = 2.1 := by
      rw [max_eq_left (by norm_num)]; norm_num
    norm_num [hmin, hmax, pyRound]
  · norm_num

/-- C6 amended: whenever the TDEE estimator returns a value (for a
non-negative baseline guess), that value is the rounded integer of a number
clamped into `[0.7 * baseline, 1.3 * baseline]`, and hence the returned
integer itself lies within that region widened by the rounding slack 1/2
(rounding can push it up to 1/2 kcal outside the exact region, as
the counterexample above shows). -/
theorem C6_amended (df : LogDF) (b : ℤ) (v : ℤ)
    (h : estimate_tdee_from_logs df b = some v) (hb : 0 ≤ b) :
    ∃ c : ℚ, v = pyRound c ∧ (b : ℚ) * 0.7 ≤ c ∧ c ≤ (b : ℚ) * 1.3 ∧
      (b : ℚ) * 0.7 - 1/2 ≤ (v : ℚ) ∧ (v : ℚ) ≤ (b : ℚ) * 1.3 + 1/2 := by
  rw [estimate_tdee_from_logs] at h
  cases hr : tdee_raw df with
  | none => rw [hr] at h; exact absurd h (by simp)
  | some e =>
    rw [hr, Option.map_some'] at h
    have hv : v = pyRound (max ((b : ℚ) * 0.7) (min ((b : ℚ) * 1.3) e)) :=
      (Option.some.injEq _ _ ▸ h).symm
    have hbq : (0 : ℚ) ≤ (b : ℚ) := by exact_mod_cast hb
    have hAB : (b : ℚ) * 0.7 ≤ (b : ℚ) * 1.3 := by nlinarith
    have hround := pyRound_sub_le (max ((b : ℚ) * 0.7) (min ((b : ℚ) * 1.3) e))
    rw [abs_le] at hround
    obtain ⟨hr1, hr2⟩ := hround
    have hA : (b : ℚ) * 0.7 ≤ max ((b : ℚ) * 0.7) (min ((b : ℚ) * 1.3) e) :=
      le_max_left _ _
    have hB : max ((b : ℚ) * 0.7) (min ((b : ℚ) * 1.3) e) ≤ (b : ℚ) * 1.3 :=
      max_le hAB (min_le_left _ _)
    refine ⟨max ((b : ℚ) * 0.7) (min ((b : ℚ) * 1.3) e), hv, hA, hB, ?_, ?_⟩
    · rw [hv]; linarith
    · rw [hv]; linarith

/-- C6 witness: 14 complete rows of 2000 kcal intake and constant weight
with baseline 2000 give `some 2000`, and the amended clamp property applies
to it. -/
theorem C6_amended_witness :
    (estimate_tdee_from_logs
        ⟨true, true, true, List.replicate 14 ⟨some 70, some 2000, none⟩⟩ 2000 =
        some 2000 ∧ (0 : ℤ) ≤ 2000) ∧
    (∃ c : ℚ, (2000 : ℤ) = pyRound c ∧ ((2000 : ℤ) : ℚ) * 0.7 ≤ c ∧
      c ≤ ((2000 : ℤ) : ℚ) * 1.3 ∧
      ((2000 : ℤ) : ℚ) * 0.7 - 1/2 ≤ (((2000 : ℤ)) : ℚ) ∧
      (((2000 : ℤ)) : ℚ) ≤ ((2000 : ℤ) : ℚ) * 1.3 + 1/2) := by
  have hflt : tdeeFiltered ⟨true, true, true, List.replicate 14 ⟨some 70, some 2000, none⟩⟩ =
      List.replicate 14 ((2000 : ℚ), (70 : ℚ)) := by decide
  have hus : tdeeUsable ⟨true, true, true, List.replicate 14 ⟨some 70, some 2000, none⟩⟩ =
      [6] := by decide
  have hrhs : tdeeRhs ⟨true, true, true, List.replicate 14 ⟨some 70, some 2000, none⟩⟩ 6 =
      14000 := by
    unfold tdeeRhs win7mean win7sum
    rw [hflt]
    simp [List.map_replicate, List.drop_replicate, List.take_replicate,
      List.sum_replicate]
    norm_num
  have heval : estimate_tdee_from_logs
      ⟨true, true, true, List.replicate 14 ⟨some 70, some 2000, none⟩⟩ 2000 =
      some 2000 := by
    have hraw := tdee_raw_eval
      ⟨true, true, true, List.replicate 14 ⟨some 70, some 2000, none⟩⟩
      (by decide) (by rw [hflt]; decide) (by rw [hus]; rfl)
    rw [estimate_tdee_from_logs, hraw, hus]
    simp only [List.map_cons, List.map_nil, hrhs, List.sum_cons, List.sum_nil,
      List.length_cons, List.length_nil, Option.map_some']
    norm_num [pyRound, min_def, max_def]
  exact ⟨⟨heval, by norm_num⟩,
    C6_amended ⟨true, true, true, List.replicate 14 ⟨some 70, some 2000, none⟩⟩
      2000 2000 heval (by norm_num)⟩

/-! ## C2: load_foods invariants -/

/-- C2 counterexample: a table whose kcal cell reads `"-100"` is retained by
`load_foods` with kcal `-100`: the `-?\d+(\.\d+)?` coercion accepts a
leading minus and no sign check follows, so a retained row's kcal need not
be non-negative. -/
theorem C2_counterexample :
    ((load_foods ⟨["food", "kcal"], [[some "x", some "-100"]]⟩).rows.map
      (fun r => r.kcal)) = [-100] ∧ ¬((0 : ℚ) ≤ -100) := by
  have h1 : kcalColOf ⟨["food", "kcal"], [[some "x", some "-100"]]⟩ = some "kcal" := by
    decide
  have h2 : foodColOf ⟨["food", "kcal"], [[some "x", some "-100"]]⟩ = some "food" := by
    decide
  have h3 : proteinColOf ⟨["food", "kcal"], [[some "x", some "-100"]]⟩ = none := by
    decide
  have h4 : carbsColOf ⟨["food", "kcal"], [[some "x", some "-100"]]⟩ = none := by
    decide
  have h5 : fatColOf ⟨["food", "kcal"], [[some "x", some "-100"]]⟩ = none := by
    decide
  have h6 : getCellByCol ⟨["food", "kcal"], [[some "x", some "-100"]]⟩ (some "kcal")
      [some "x", some "-100"] = some "-100" := by decide
  have h7 : getCellByCol ⟨["food", "kcal"], [[some "x", some "-100"]]⟩ (some "food")
      [some "x", some "-100"] = some "x" := by decide
  have hs : stripChars ("-100" : String).data = ['-', '1', '0', '0'] := by decide
  have hfind : findNum (['-', '1', '0', '0'].filter (· ≠ ',')) =
      some (true, ['1', '0', '0'], []) := by decide
  have hd : digitsToNat ['1', '0', '0'] = 100 := by decide
  have h8 : _to_number (some "-100") = some (-100) := by
    simp only [_to_number, hs]
    rw [if_neg (by decide)]
    rw [hfind]
    simp only [numValue, hd]
    norm_num [digitsToNat]
  constructor
  · have h9 : ∀ (tb : RawTable) (row : List (Option String)),
        getCellByCol tb none row = none := fun _ _ => rfl
    have h10 : _to_number none = none := rfl
    have hpr : parsedRow ⟨["food", "kcal"], [[some "x", some "-100"]]⟩
        [some "x", some "-100"] = (some "x", some (-100), none, none, none) := by
      simp only [parsedRow, h1, h2, h3, h4, h5, h6, h7, h8, h9, h10]
    simp [load_foods, hpr]
  · norm_num

/-- C2 amended: for every raw table, `rows_after_kcal ≤ rows_in`,
`rows_after_kcal` counts exactly the retained rows, every retained row's
kcal is the successful (non-missing) numeric parse of its kcal cell, and the
three density fields are total: `0` when kcal is `0` and the exact quotient
formula otherwise (so no NaN/Inf survives).  The claim's non-negativity of
kcal is dropped: the counterexample above shows a parseable negative kcal is
retained unchanged. -/
theorem C2_amended (t : RawTable) :
    (load_foods t).rows_after_kcal ≤ (load_foods t).rows_in ∧
    (load_foods t).rows_after_kcal = (load_foods t).rows.length ∧
    ∀ r ∈ (load_foods t).rows,
      (∃ row ∈ t.rows, _to_number (getCellByCol t (kcalColOf t) row) = some r.kcal) ∧
      (r.kcal = 0 → r.protein_per_100kcal = 0 ∧ r.carbs_per_100kcal = 0 ∧
        r.fat_per_100kcal = 0) ∧
      (r.kcal ≠ 0 → r.protein_per_100kcal = r.protein_g / r.kcal * 100 ∧
        r.carbs_per_100kcal = r.carbs_g / r.kcal * 100 ∧
        r.fat_per_100kcal = r.fat_g / r.kcal * 100) := by
  refine ⟨?_, rfl, ?_⟩
  · exact le_trans (List.length_filterMap_le _ _) (le_of_eq rfl)
  · intro r hr
    obtain ⟨pr, hpr, hf⟩ := List.mem_filterMap.mp hr
    obtain ⟨row, hrow, hpr2⟩ := List.mem_map.mp hpr
    obtain ⟨fo, ko, po, co, fat_o⟩ := pr
    cases ko with
    | none => simp at hf
    | some k =>
      simp only [Option.some.injEq] at hf
      subst hf
      have hko : (parsedRow t row).2.1 = some k := by rw [hpr2]
      refine ⟨⟨row, hrow, ?_⟩, ?_, ?_⟩
      · rw [show _to_number (getCellByCol t (kcalColOf t) row) = (parsedRow t row).2.1
          from rfl, hko]
      · intro hk0
        simp only at hk0
        simp [hk0]
      · intro hk0
        simp only at hk0
        simp [if_neg hk0]

/-! ## C1 and C8: suggest_meals -/

instance : IsTotal ARow (fun a b => a.score ≤ b.score) :=
  ⟨fun a b => le_total a.score b.score⟩

instance : IsTrans ARow (fun a b => a.score ≤ b.score) :=
  ⟨fun _ _ _ h1 h2 => le_trans h1 h2⟩

lemma rowScore_keptAssoc (a : ARow) : rowScore (keptAssoc a) = a.score := rfl

lemma round1_zero : round1 0 = 0 := by norm_num [round1, pyRound]

lemma lookup_keptAssoc_target (a : ARow) :
    List.lookup "meal_kcal_target" (keptAssoc a) = none := rfl

lemma lookup_keptAssoc_est_p (a : ARow) :
    List.lookup "est_protein_g" (keptAssoc a) = none := rfl

lemma lookup_keptAssoc_est_c (a : ARow) :
    List.lookup "est_carbs_g" (keptAssoc a) = none := rfl

lemma lookup_keptAssoc_est_f (a : ARow) :
    List.lookup "est_fat_g" (keptAssoc a) = none := rfl

/-- C8: `suggest_meals` returns at most `topn` rows, the scores of the
returned rows are non-decreasing from first to last, and an empty catalog
yields an empty result. -/
theorem C8_suggest_meals_shape (foods : List FoodRow) (goals : GoalsDict)
    (meal_kcal : ℤ) (strategy : String) (topn : ℕ) :
    (suggest_meals foods goals meal_kcal strategy topn).length ≤ topn ∧
    List.Pairwise (fun a b => rowScore a ≤ rowScore b)
      (suggest_meals foods goals meal_kcal strategy topn) ∧
    suggest_meals [] goals meal_kcal strategy topn = [] := by
  refine ⟨?_, ?_, rfl⟩
  · unfold suggest_meals
    split
    · simp
    · exact List.length_take_le _ _
  · unfold suggest_meals
    split
    · simp
    · have hs := List.sorted_insertionSort (fun a b : ARow => a.score ≤ b.score)
        (suggest_augmented foods goals meal_kcal strategy)
      have hmap : List.Pairwise (fun a b => rowScore a ≤ rowScore b)
          ((List.insertionSort (fun a b : ARow => a.score ≤ b.score)
            (suggest_augmented foods goals meal_kcal strategy)).map keptAssoc) := by
        rw [List.pairwise_map]
        simpa [rowScore_keptAssoc] using hs
      exact hmap.sublist (List.take_sublist _ _)

/-- C1 counterexample: on a one-row catalog, the rows returned by
`suggest_meals` contain no `est_protein_g` and no `meal_kcal_target` column
at all (`keep_cols` drops the assigned columns), refuting the claim that the
result carries them. -/
theorem C1_counterexample :
    (suggest_meals [⟨"x", 100, 10, 5, 2, 10, 5, 2⟩]
        ⟨some 2000, some 120, some 200, some 60⟩ 600 "balanced" 12).map
      (List.lookup "est_protein_g") = [none] ∧
    (suggest_meals [⟨"x", 100, 10, 5, 2, 10, 5, 2⟩]
        ⟨some 2000, some 120, some 200, some 60⟩ 600 "balanced" 12).map
      (List.lookup "meal_kcal_target") = [none] := by
  constructor <;>
    simp [suggest_meals, suggest_augmented, List.insertionSort, List.orderedInsert,
      lookup_keptAssoc_est_p, lookup_keptAssoc_target]

/-- C1 amended: `suggest_meals` does compute, for every input row, the
attached `meal_kcal_target` and the estimated macro grams scaled to the
target (rounded to one decimal, `0.0` when the food's kcal is `0`) — but
only in its intermediate augmented frame; the returned rows are projected
onto `keep_cols` and therefore contain neither `meal_kcal_target` nor any
`est_*` column. -/
theorem C1_amended (foods : List FoodRow) (goals : GoalsDict) (meal_kcal : ℤ)
    (strategy : String) (topn : ℕ) (r : FoodRow) (hr : r ∈ foods) :
    (mkARow (_goal_ratios goals) meal_kcal strategy r).meal_kcal_target = meal_kcal ∧
    (mkARow (_goal_ratios goals) meal_kcal strategy r).est_protein_g =
      (if r.kcal = 0 then 0 else round1 (r.protein_g * ((meal_kcal : ℚ) / r.kcal))) ∧
    (mkARow (_goal_ratios goals) meal_kcal strategy r).est_carbs_g =
      (if r.kcal = 0 then 0 else round1 (r.carbs_g * ((meal_kcal : ℚ) / r.kcal))) ∧
    (mkARow (_goal_ratios goals) meal_kcal strategy r).est_fat_g =
      (if r.kcal = 0 then 0 else round1 (r.fat_g * ((meal_kcal : ℚ) / r.kcal))) ∧
    ∀ row ∈ suggest_meals foods goals meal_kcal strategy topn,
      List.lookup "meal_kcal_target" row = none ∧
      List.lookup "est_protein_g" row = none ∧
      List.lookup "est_carbs_g" row = none ∧
      List.lookup "est_fat_g" row = none := by
  refine ⟨rfl, ?_, ?_, ?_, ?_⟩
  · by_cases hk : r.kcal = 0 <;> simp [mkARow, hk, round1_zero]
  · by_cases hk : r.kcal = 0 <;> simp [mkARow, hk, round1_zero]
  · by_cases hk : r.kcal = 0 <;> simp [mkARow, hk, round1_zero]
  · intro row hrow
    unfold suggest_meals at hrow
    split at hrow
    · simp at hrow
    · have hrow2 := (List.take_sublist _ _).subset hrow
      obtain ⟨a, -, rfl⟩ := List.mem_map.mp hrow2
      exact ⟨lookup_keptAssoc_target a, lookup_keptAssoc_est_p a,
        lookup_keptAssoc_est_c a, lookup_keptAssoc_est_f a⟩

/-- C1 witness: the amended statement instantiated on a one-row catalog. -/
theorem C1_amended_witness :
    ((⟨"x", 100, 10, 5, 2, 10, 5, 2⟩ : FoodRow) ∈
      [(⟨"x", 100, 10, 5, 2, 10, 5, 2⟩ : FoodRow)]) ∧
    ((mkARow (_goal_ratios ⟨some 2000, some 120, some 200, some 60⟩) 600 "balanced"
        ⟨"x", 100, 10, 5, 2, 10, 5, 2⟩).meal_kcal_target = 600 ∧
     (mkARow (_goal_ratios ⟨some 2000, some 120, some 200, some 60⟩) 600 "balanced"
        ⟨"x", 100, 10, 5, 2, 10, 5, 2⟩).est_protein_g =
      (if (100 : ℚ) = 0 then 0 else round1 ((10 : ℚ) * (((600 : ℤ) : ℚ) / (100 : ℚ)))) ∧
     (mkARow (_goal_ratios ⟨some 2000, some 120, some 200, some 60⟩) 600 "balanced"
        ⟨"x", 100, 10, 5, 2, 10, 5, 2⟩).est_carbs_g =
      (if (100 : ℚ) = 0 then 0 else round1 ((5 : ℚ) * (((600 : ℤ) : ℚ) / (100 : ℚ)))) ∧
     (mkARow (_goal_ratios ⟨some 2000, some 120, some 200, some 60⟩) 600 "balanced"
        ⟨"x", 100, 10, 5, 2, 10, 5, 2⟩).est_fat_g =
      (if (100 : ℚ) = 0 then 0 else round1 ((2 : ℚ) * (((600 : ℤ) : ℚ) / (100 : ℚ)))) ∧
     ∀ row ∈ suggest_meals [⟨"x", 100, 10, 5, 2, 10, 5, 2⟩]
        ⟨some 2000, some 120, some 200, some 60⟩ 600 "balanced" 12,
       List.lookup "meal_kcal_target" row = none ∧
       List.lookup "est_protein_g" row = none ∧
       List.lookup "est_carbs_g" row = none ∧
       List.lookup "est_fat_g" row = none) :=
  ⟨List.mem_singleton.mpr rfl,
    C1_amended [⟨"x", 100, 10, 5, 2, 10, 5, 2⟩] ⟨some 2000, some 120, some 200, some 60⟩
      600 "balanced" 12 ⟨"x", 100, 10, 5, 2, 10, 5, 2⟩ (List.mem_singleton.mpr rfl)⟩

end HealthyLife
